import Mathlib

/-!
Verification development for the AirBnB_clone command console (`console.py`).

The console (`HBNBCommand`) is a `cmd.Cmd` subclass with handlers
`do_create`, `do_show`, `do_destroy`, `do_all`, an `emptyline` override,
and a helper `validate_classname`.  The storage layer (`models.storage`,
a `FileStorage` mapping keys `"<ClassName>.<id>"` to objects) and the
`BaseModel` class are imported from the `models` package, which is not part
of the sources here; where their behaviour matters it is modelled from the
spec, as marked in the doc comments.

The embedding:
  * the storage map is an association list with unique keys, insertion
    ordered, mirroring a Python `dict` (insertion of a fresh key appends,
    re-assignment of an existing key replaces in place);
  * each handler is a pure function from a console state and the
    whitespace-split argument tokens (Python handlers receive the raw
    argument string and immediately call `arg.split()`) to a result
    carrying the next state, the printed output and the `cmd.Cmd` stop
    flag (the Python handlers return `None`, i.e. `false`, on every path;
    `do_quit` / `do_EOF` return `True`);
  * printing is modelled by a list of `Out` values: `Out.line s` for
    `print(s)` of a string, `Out.listing l` for `print([...])` of a list
    of strings as in `do_all`.
-/

/-- A stored object. Modelled from the spec: `BaseModel` (from the
`models` package, not among the sources) is "a generic object with a
unique identifier (string, UUID-like)"; only the class name (Python
`type(v).__name__`) and the identifier are observable in the claims, so
timestamps are omitted. -/
structure Obj where
  className : String
  id : String
deriving DecidableEq

/-- Modelled from the spec: the string representation `str(obj)` of a
stored object, as printed by `show` and `all`. -/
def strOf (o : Obj) : String :=
  "[" ++ o.className ++ "] (" ++ o.id ++ ")"

/-- One printed value: a plain line (`print(s)`) or a Python list of
strings (`print([...])` in `do_all`). -/
inductive Out where
  | line (s : String)
  | listing (items : List String)
deriving DecidableEq

/-- The storage map, as an insertion-ordered association list; a Python
`dict` never holds a key twice (`keysUnique` below). -/
abbrev Dict := List (String × Obj)

/-- Python `d.get(key, None)`: the value at the first occurrence of the
key, if any. -/
def dictGet : Dict → String → Option Obj
  | [], _ => none
  | p :: t, k => if p.1 == k then some p.2 else dictGet t k

/-- Python `d[key] = v`: replace the value at an existing key in place,
otherwise append the new pair at the end (dict insertion order). -/
def dictInsert : Dict → String → Obj → Dict
  | [], k, v => [(k, v)]
  | p :: t, k, v => if p.1 == k then (k, v) :: t else p :: dictInsert t k v

/-- Python `del d[key]`: drop the pairs at the key. -/
def dictDel (d : Dict) (k : String) : Dict :=
  d.filter (fun p => p.1 != k)

/-- Keys occur at most once in the storage map (the `dict` invariant). -/
def keysUnique (d : Dict) : Prop :=
  (d.map Prod.fst).Nodup

instance (d : Dict) : Decidable (keysUnique d) := by
  unfold keysUnique; infer_instance

/-- `current_classes` (console.py line 32), the dict from class name to
class, kept as the list of known class names; `BaseModel` is its only
entry. -/
def current_classes : List String :=
  ["BaseModel"]

/-- The console state: the live storage map (`storage.all()`), the map as
last persisted to the JSON file, a count of `save` calls, and a counter
feeding fresh identifiers. -/
structure ConsoleState where
  objects : Dict
  fileContents : Dict
  saves : Nat
  nextId : Nat
deriving DecidableEq

/-- The state with empty storage. -/
def emptyState : ConsoleState :=
  ⟨[], [], 0, 0⟩

/-- The result of one handler call: next state, printed output, and the
`cmd.Cmd` stop flag (the truthiness of the Python return value). -/
structure HRes where
  state : ConsoleState
  out : List Out
  stop : Bool
deriving DecidableEq

/-- `validate_classname(args, check_id)` (console.py lines 154-165),
returning the printed error message on failure and `none` on success.
The first two messages carry a trailing space in the source. -/
def validate_classname (args : List String) (check_id : Bool) : Option String :=
  if args.length < 1 then some "** class name missing ** "
  else if !(current_classes.contains (args.headD "")) then some "** class doesn\x27t exist ** "
  else if args.length < 2 ∧ check_id = true then some "** instance id missing **"
  else none

/-- Modelled from the spec: the fresh "UUID-like" identifier given to a
newly constructed `BaseModel`, drawn from the counter in the state. -/
def freshId (n : Nat) : String :=
  "uuid-" ++ toString n

/-- `do_create` (console.py lines 65-73): validate, construct
`current_classes[args[0]]()`, `new_obj.save()`, print the id.
Construction and `save` are modelled from the spec: the constructor
registers the object in the storage map under `"<ClassName>.<id>"`
(storage `new`), and `save()` serializes the map to the file. -/
def do_create (st : ConsoleState) (args : List String) : HRes :=
  match validate_classname args false with
  | some msg => ⟨st, [Out.line msg], false⟩
  | none =>
    let cls := args.headD ""
    let newId := freshId st.nextId
    let newObj : Obj := ⟨cls, newId⟩
    let objects := dictInsert st.objects (cls ++ "." ++ newId) newObj
    ⟨⟨objects, objects, st.saves + 1, st.nextId + 1⟩, [Out.line newId], false⟩

/-- `do_show` (console.py lines 81-96): validate with `check_id`, look
`"{args[0]}.{args[1]}"` up in `storage.all()`, print
`"** no instance found **"` or the instance. -/
def do_show (st : ConsoleState) (args : List String) : HRes :=
  match validate_classname args true with
  | some msg => ⟨st, [Out.line msg], false⟩
  | none =>
    let key := args.headD "" ++ "." ++ args.getD 1 ""
    match dictGet st.objects key with
    | none => ⟨st, [Out.line "** no instance found **"], false⟩
    | some obj => ⟨st, [Out.line (strOf obj)], false⟩

/-- `do_destroy` (console.py lines 104-120): validate with `check_id`,
look the key up, print `"** no instance found **"` if absent, else
`del instance_objs[key]` followed by `storage.save()` (modelled from the
spec as rewriting the file from the map). -/
def do_destroy (st : ConsoleState) (args : List String) : HRes :=
  match validate_classname args true with
  | some msg => ⟨st, [Out.line msg], false⟩
  | none =>
    let key := args.headD "" ++ "." ++ args.getD 1 ""
    match dictGet st.objects key with
    | none => ⟨st, [Out.line "** no instance found **"], false⟩
    | some _ =>
      let objects := dictDel st.objects key
      ⟨⟨objects, objects, st.saves + 1, st.nextId⟩, [], false⟩

/-- `do_all` (console.py lines 128-144): with no argument print the list
of `str(v)` over all stored objects; with an unknown first argument print
the unknown-class message (with a trailing space in the source, line 139);
else print the list restricted to objects with `type(v).__name__ ==
args[0]`. -/
def do_all (st : ConsoleState) (args : List String) : HRes :=
  if args.length < 1 then
    ⟨st, [Out.listing (st.objects.map (fun p => strOf p.2))], false⟩
  else if !(current_classes.contains (args.headD "")) then
    ⟨st, [Out.line "** class doesn\x27t exist ** "], false⟩
  else
    ⟨st, [Out.listing ((st.objects.filter
        (fun p => p.2.className == args.headD "")).map (fun p => strOf p.2))], false⟩

/-- `emptyline` (console.py lines 61-63): overridden to `pass`, so an
empty input line does nothing and the loop continues. -/
def emptyline (st : ConsoleState) : HRes :=
  ⟨st, [], false⟩

/-- `do_quit` / `do_EOF` (console.py lines 53-59): return `True`, ending
the command loop. -/
def do_quit (st : ConsoleState) : HRes :=
  ⟨st, [], true⟩

/-- Whitespace as recognized by Python `str.split()`. -/
def isSpaceChar (c : Char) : Bool :=
  c == ' ' || c == '\t' || c == '\n' || c == '\r'

/-- Helper for `pySplit`: accumulate the current token (reversed). -/
def tokensAux : List Char → List Char → List String
  | [], acc => if acc.isEmpty then [] else [String.mk acc.reverse]
  | c :: cs, acc =>
    if isSpaceChar c then
      if acc.isEmpty then tokensAux cs []
      else String.mk acc.reverse :: tokensAux cs []
    else tokensAux cs (c :: acc)

/-- Python `arg.split()`: split on runs of whitespace, no empty tokens. -/
def pySplit (line : String) : List String :=
  tokensAux line.data []

/-- One read-eval-print step of the `cmd.Cmd` loop. Modelled from the
spec: the loop "reads a line, splits into verb + arguments, dispatches to
a handler" (`cmd.Cmd` is the standard library, not among the sources); a
blank line goes to `emptyline`, an unknown verb prints
`"*** Unknown syntax: <line>"`. -/
def onecmd (st : ConsoleState) (line : String) : HRes :=
  match pySplit line with
  | [] => emptyline st
  | verb :: args =>
    if verb = "create" then do_create st args
    else if verb = "show" then do_show st args
    else if verb = "destroy" then do_destroy st args
    else if verb = "all" then do_all st args
    else if verb = "quit" then do_quit st
    else if verb = "EOF" then do_quit st
    else ⟨st, [Out.line ("*** Unknown syntax: " ++ line)], false⟩

/-- One console command with its argument tokens, for stating properties
of command sequences. -/
inductive ConsoleCmd where
  | createC (args : List String)
  | showC (args : List String)
  | destroyC (args : List String)
  | allC (args : List String)
deriving DecidableEq

/-- Dispatch one command. -/
def step (st : ConsoleState) : ConsoleCmd → HRes
  | .createC a => do_create st a
  | .showC a => do_show st a
  | .destroyC a => do_destroy st a
  | .allC a => do_all st a

/-- Run a sequence of commands, threading the state. -/
def runCmds : ConsoleState → List ConsoleCmd → ConsoleState
  | st, [] => st
  | st, c :: cs => runCmds (step st c).state cs

/-- A concrete state holding one `BaseModel` instance, for witnesses. -/
def sampleState : ConsoleState :=
  ⟨[("BaseModel.abc", ⟨"BaseModel", "abc"⟩)],
   [("BaseModel.abc", ⟨"BaseModel", "abc"⟩)], 1, 0⟩

/-- A concrete state holding objects of two classes, for witnesses. -/
def sampleState2 : ConsoleState :=
  ⟨[("BaseModel.a", ⟨"BaseModel", "a"⟩), ("Other.b", ⟨"Other", "b"⟩)],
   [], 0, 0⟩

/-! ### Association-list (Python dict) lemmas -/

theorem dictGet_dictInsert_self (d : Dict) (k : String) (v : Obj) :
    dictGet (dictInsert d k v) k = some v := by
  induction d with
  | nil => simp [dictInsert, dictGet]
  | cons p t ih =>
    cases hp : p.1 == k with
    | true => simp [dictInsert, dictGet, hp]
    | false => simp [dictInsert, dictGet, hp, ih]

theorem dictGet_dictDel_self (d : Dict) (k : String) :
    dictGet (dictDel d k) k = none := by
  induction d with
  | nil => rfl
  | cons p t ih =>
    by_cases hk : p.1 = k
    · simpa [dictDel, List.filter_cons, hk] using ih
    · simpa [dictDel, List.filter_cons, hk, dictGet] using ih

theorem keys_dictInsert (d : Dict) (k : String) (v : Obj) :
    (dictInsert d k v).map Prod.fst =
      if d.any (fun p => p.1 == k) = true then d.map Prod.fst
      else d.map Prod.fst ++ [k] := by
  induction d with
  | nil => simp [dictInsert]
  | cons p t ih =>
    cases hp : p.1 == k with
    | true =>
      have hk : p.1 = k := by simpa using hp
      simp [dictInsert, hp, hk, List.any_cons]
    | false =>
      by_cases h2 : t.any (fun p => p.1 == k) = true
      · simp [dictInsert, hp, h2, ih, List.any_cons]
      · simp [dictInsert, hp, h2, ih, List.any_cons]

theorem keysUnique_dictInsert (d : Dict) (k : String) (v : Obj)
    (h : keysUnique d) : keysUnique (dictInsert d k v) := by
  unfold keysUnique at h ⊢
  rw [keys_dictInsert]
  split
  · exact h
  · rename_i hany
    have hk : k ∉ d.map Prod.fst := by
      intro hmem
      rcases List.mem_map.mp hmem with ⟨p, hp, hpk⟩
      exact hany (List.any_eq_true.mpr ⟨p, hp, by simp [hpk]⟩)
    rw [List.nodup_append_comm]
    exact List.nodup_cons.mpr ⟨hk, h⟩

theorem keysUnique_dictDel (d : Dict) (k : String)
    (h : keysUnique d) : keysUnique (dictDel d k) :=
  List.Nodup.sublist (List.Sublist.map Prod.fst (List.filter_sublist d)) h

/-! ### Frame lemmas for the read-only handlers -/

theorem do_show_state (st : ConsoleState) (args : List String) :
    (do_show st args).state = st := by
  unfold do_show
  split
  · rfl
  · dsimp only
    split <;> rfl

theorem do_all_state (st : ConsoleState) (args : List String) :
    (do_all st args).state = st := by
  unfold do_all
  split
  · rfl
  · split <;> rfl

theorem keysUnique_step (st : ConsoleState) (c : ConsoleCmd)
    (h : keysUnique st.objects) :
    keysUnique (step st c).state.objects := by
  cases c with
  | createC a =>
    show keysUnique (do_create st a).state.objects
    unfold do_create
    split
    · exact h
    · exact keysUnique_dictInsert _ _ _ h
  | showC a =>
    show keysUnique (do_show st a).state.objects
    rw [do_show_state]
    exact h
  | destroyC a =>
    show keysUnique (do_destroy st a).state.objects
    unfold do_destroy
    split
    · exact h
    · dsimp only
      split
      · exact h
      · exact keysUnique_dictDel _ _ h
  | allC a =>
    show keysUnique (do_all st a).state.objects
    rw [do_all_state]
    exact h

/-! ### Claim theorems -/

/-- C1: from any storage state, `create <class>` with a valid class name
prints the fresh id of the created object, registers the object under the
key `<class>.<id>`, and a subsequent `show <class> <id>` with that id
prints the string representation of the created object. -/
theorem create_then_show_finds_instance (st : ConsoleState) (c : String)
    (hc : current_classes.contains c = true) :
    (do_create st [c]).out = [Out.line (freshId st.nextId)] ∧
    dictGet (do_create st [c]).state.objects (c ++ "." ++ freshId st.nextId)
      = some ⟨c, freshId st.nextId⟩ ∧
    (do_show (do_create st [c]).state [c, freshId st.nextId]).out
      = [Out.line (strOf ⟨c, freshId st.nextId⟩)] := by
  have hm : c ∈ current_classes := by simpa using hc
  have hv1 : validate_classname [c] false = none := by
    simp [validate_classname, hm]
  have hv2 : validate_classname [c, freshId st.nextId] true = none := by
    simp [validate_classname, hm]
  refine ⟨?_, ?_, ?_⟩
  · simp [do_create, hv1]
  · simp [do_create, hv1, dictGet_dictInsert_self]
  · simp [do_show, do_create, hv1, hv2, dictGet_dictInsert_self]

/-- C1 witness: the property at the empty state and class `BaseModel`. -/
theorem create_then_show_finds_instance_witness :
    current_classes.contains "BaseModel" = true ∧
    ((do_create emptyState ["BaseModel"]).out
        = [Out.line (freshId emptyState.nextId)] ∧
     dictGet (do_create emptyState ["BaseModel"]).state.objects
        ("BaseModel" ++ "." ++ freshId emptyState.nextId)
        = some ⟨"BaseModel", freshId emptyState.nextId⟩ ∧
     (do_show (do_create emptyState ["BaseModel"]).state
        ["BaseModel", freshId emptyState.nextId]).out
        = [Out.line (strOf ⟨"BaseModel", freshId emptyState.nextId⟩)]) :=
  ⟨by decide, create_then_show_finds_instance emptyState "BaseModel" (by decide)⟩

/-- C2: for any stored instance with key `<class>.<id>` (and a known
class), `destroy <class> <id>` removes the key from the storage map,
and a subsequent `show <class> <id>` prints the no-instance message. -/
theorem destroy_removes_key (st : ConsoleState) (c i : String) (o : Obj)
    (hc : current_classes.contains c = true)
    (ho : dictGet st.objects (c ++ "." ++ i) = some o) :
    dictGet (do_destroy st [c, i]).state.objects (c ++ "." ++ i) = none ∧
    (do_show (do_destroy st [c, i]).state [c, i]).out
      = [Out.line "** no instance found **"] := by
  have hm : c ∈ current_classes := by simpa using hc
  have hv : validate_classname [c, i] true = none := by
    simp [validate_classname, hm]
  have h1 : (do_destroy st [c, i]).state.objects
      = dictDel st.objects (c ++ "." ++ i) := by
    simp [do_destroy, hv, ho]
  refine ⟨?_, ?_⟩
  · rw [h1]
    exact dictGet_dictDel_self st.objects (c ++ "." ++ i)
  · simp [do_show, hv, h1, dictGet_dictDel_self]

/-- C2 witness: destroying the single instance of `sampleState`. -/
theorem destroy_removes_key_witness :
    (current_classes.contains "BaseModel" = true ∧
     dictGet sampleState.objects ("BaseModel" ++ "." ++ "abc")
       = some ⟨"BaseModel", "abc"⟩) ∧
    (dictGet (do_destroy sampleState ["BaseModel", "abc"]).state.objects
       ("BaseModel" ++ "." ++ "abc") = none ∧
     (do_show (do_destroy sampleState ["BaseModel", "abc"]).state
        ["BaseModel", "abc"]).out = [Out.line "** no instance found **"]) :=
  ⟨⟨by decide, by decide⟩,
   destroy_removes_key sampleState "BaseModel" "abc" ⟨"BaseModel", "abc"⟩
     (by decide) (by decide)⟩

/-- C3: `all` with no argument prints the string representations of all
stored objects (in storage order), and `all <class>` with a known class
name prints exactly those of the stored objects whose class is
`<class>`. -/
theorem all_lists_objects (st : ConsoleState) (c : String) :
    (do_all st []).out = [Out.listing (st.objects.map (fun p => strOf p.2))] ∧
    (current_classes.contains c = true →
      (do_all st [c]).out = [Out.listing ((st.objects.filter
        (fun p => p.2.className == c)).map (fun p => strOf p.2))]) := by
  constructor
  · simp [do_all]
  · intro hc
    have hm : c ∈ current_classes := by simpa using hc
    simp [do_all, hm]

/-- C3 witness: listing a state holding objects of two classes. -/
theorem all_lists_objects_witness :
    current_classes.contains "BaseModel" = true ∧
    (do_all sampleState2 ["BaseModel"]).out
      = [Out.listing ((sampleState2.objects.filter
          (fun p => p.2.className == "BaseModel")).map (fun p => strOf p.2))] :=
  ⟨by decide, (all_lists_objects sampleState2 "BaseModel").2 (by decide)⟩

/-- C4 counterexample: `show` on an unknown class does not print exactly
the string without a trailing space; the message printed by the code
carries a trailing space (console.py lines 160 and 139). -/
theorem unknown_class_exact_message_fails :
    (do_show emptyState ["MyModel", "1"]).out
      ≠ [Out.line "** class doesn\x27t exist **"] ∧
    (do_show emptyState ["MyModel", "1"]).out
      = [Out.line "** class doesn\x27t exist ** "] := by decide

/-- C4 (amended): every command among `create`, `show`, `destroy`, `all`
given a first argument that is not a known class name prints exactly the
unknown-class message with its trailing space, leaves the state (hence
the storage map) unchanged, and does not stop the loop. -/
theorem unknown_class_prints_error (st : ConsoleState) (c : String)
    (rest : List String) (hc : current_classes.contains c = false) :
    do_create st (c :: rest)
      = ⟨st, [Out.line "** class doesn\x27t exist ** "], false⟩ ∧
    do_show st (c :: rest)
      = ⟨st, [Out.line "** class doesn\x27t exist ** "], false⟩ ∧
    do_destroy st (c :: rest)
      = ⟨st, [Out.line "** class doesn\x27t exist ** "], false⟩ ∧
    do_all st (c :: rest)
      = ⟨st, [Out.line "** class doesn\x27t exist ** "], false⟩ := by
  have hm : c ∉ current_classes := by simpa using hc
  have hv : ∀ b, validate_classname (c :: rest) b
      = some "** class doesn\x27t exist ** " := by
    intro b
    simp [validate_classname, hm]
  refine ⟨?_, ?_, ?_, ?_⟩
  · simp [do_create, hv]
  · simp [do_show, hv]
  · simp [do_destroy, hv]
  · simp [do_all, hm]

/-- C4 witness: the amended property at the unknown class `MyModel`. -/
theorem unknown_class_prints_error_witness :
    current_classes.contains "MyModel" = false ∧
    do_create emptyState ["MyModel"]
      = ⟨emptyState, [Out.line "** class doesn\x27t exist ** "], false⟩ ∧
    do_show emptyState ["MyModel"]
      = ⟨emptyState, [Out.line "** class doesn\x27t exist ** "], false⟩ ∧
    do_destroy emptyState ["MyModel"]
      = ⟨emptyState, [Out.line "** class doesn\x27t exist ** "], false⟩ ∧
    do_all emptyState ["MyModel"]
      = ⟨emptyState, [Out.line "** class doesn\x27t exist ** "], false⟩ :=
  ⟨by decide, unknown_class_prints_error emptyState "MyModel" [] (by decide)⟩

/-- C5: `create`, `show` and `destroy` check arguments before acting: on
any validation failure the handler prints exactly the message returned by
`validate_classname`, leaves the state unchanged (no mutation, no save),
and reports `stop = false` so the command loop continues; and every such
message is one of the three fixed error strings. -/
theorem validation_failure_is_safe (st : ConsoleState) (args : List String)
    (msg : String) :
    (validate_classname args false = some msg →
      do_create st args = ⟨st, [Out.line msg], false⟩) ∧
    (validate_classname args true = some msg →
      do_show st args = ⟨st, [Out.line msg], false⟩ ∧
      do_destroy st args = ⟨st, [Out.line msg], false⟩) ∧
    (∀ b : Bool, validate_classname args b = some msg →
      msg = "** class name missing ** " ∨
      msg = "** class doesn\x27t exist ** " ∨
      msg = "** instance id missing **") := by
  refine ⟨?_, ?_, ?_⟩
  · intro h
    simp [do_create, h]
  · intro h
    exact ⟨by simp [do_show, h], by simp [do_destroy, h]⟩
  · intro b h
    unfold validate_classname at h
    split at h
    · exact Or.inl (Option.some.inj h).symm
    · split at h
      · exact Or.inr (Or.inl (Option.some.inj h).symm)
      · split at h
        · exact Or.inr (Or.inr (Option.some.inj h).symm)
        · exact Option.noConfusion h

/-- C5 witness: `create` with no arguments fails validation with the
missing-class message and changes nothing. -/
theorem validation_failure_is_safe_witness :
    validate_classname [] false = some "** class name missing ** " ∧
    do_create emptyState []
      = ⟨emptyState, [Out.line "** class name missing ** "], false⟩ :=
  ⟨by decide,
   (validation_failure_is_safe emptyState [] "** class name missing ** ").1
     (by decide)⟩

/-- C6: every mutating command that succeeds persists: a `create` passing
validation performs exactly one `save` and leaves the file contents equal
to the storage map, and so does a `destroy` passing validation that finds
its instance. -/
theorem mutating_commands_persist (st : ConsoleState) (args : List String) :
    (validate_classname args false = none →
      (do_create st args).state.saves = st.saves + 1 ∧
      (do_create st args).state.fileContents
        = (do_create st args).state.objects) ∧
    (∀ o : Obj, validate_classname args true = none →
      dictGet st.objects (args.headD "" ++ "." ++ args.getD 1 "") = some o →
      (do_destroy st args).state.saves = st.saves + 1 ∧
      (do_destroy st args).state.fileContents
        = (do_destroy st args).state.objects) := by
  constructor
  · intro h
    simp [do_create, h]
  · intro o h ho
    unfold do_destroy
    rw [h]
    dsimp only
    rw [ho]
    exact ⟨rfl, rfl⟩

/-- C6 witness: a successful `create` on the empty state saves once and
the file mirrors the map. -/
theorem mutating_commands_persist_witness :
    validate_classname ["BaseModel"] false = none ∧
    ((do_create emptyState ["BaseModel"]).state.saves = emptyState.saves + 1 ∧
     (do_create emptyState ["BaseModel"]).state.fileContents
       = (do_create emptyState ["BaseModel"]).state.objects) :=
  ⟨by decide,
   (mutating_commands_persist emptyState ["BaseModel"]).1 (by decide)⟩

/-- C7: key uniqueness is an invariant of the storage map: any sequence
of `create`, `show`, `destroy` and `all` commands run from a state whose
map has unique keys ends in a state whose map has unique keys. -/
theorem storage_keys_unique (st : ConsoleState) (cmds : List ConsoleCmd)
    (h : keysUnique st.objects) :
    keysUnique (runCmds st cmds).objects := by
  induction cmds generalizing st with
  | nil => exact h
  | cons c cs ih => exact ih (step st c).state (keysUnique_step st c h)

/-- C7 witness: a concrete command sequence from the empty state. -/
theorem storage_keys_unique_witness :
    keysUnique emptyState.objects ∧
    keysUnique (runCmds emptyState
      [ConsoleCmd.createC ["BaseModel"], ConsoleCmd.createC ["BaseModel"],
       ConsoleCmd.showC ["BaseModel", "uuid-0"],
       ConsoleCmd.destroyC ["BaseModel", "uuid-0"],
       ConsoleCmd.allC []]).objects :=
  ⟨by decide, storage_keys_unique emptyState _ (by decide)⟩

/-- C8: `show` and `all` never mutate: for every argument list and state
they return the state unchanged (hence the storage map, the persisted
file contents and the save count are all unchanged, including on the
no-instance branch of `show`). -/
theorem show_all_no_mutation (st : ConsoleState) (args : List String) :
    (do_show st args).state = st ∧ (do_all st args).state = st :=
  ⟨do_show_state st args, do_all_state st args⟩

/-- C9: a blank input line is a no-op: it prints nothing, leaves the
state unchanged, and does not stop the loop — for any state, so the
behaviour does not depend on any previously executed command. -/
theorem empty_line_is_noop (st : ConsoleState) (line : String)
    (h : pySplit line = []) :
    onecmd st line = ⟨st, [], false⟩ := by
  unfold onecmd
  rw [h]
  rfl

/-- C9 witness: a whitespace-only input line at the empty state. -/
theorem empty_line_is_noop_witness :
    pySplit "   " = [] ∧
    onecmd emptyState "   " = ⟨emptyState, [], false⟩ :=
  ⟨by decide, empty_line_is_noop emptyState "   " (by decide)⟩

/-- C10: arguments beyond those required are ignored: `show` and
`destroy` on `<class> <id> <extra...>` behave exactly as on
`<class> <id>`, and `create` on `<class> <extra...>` behaves exactly as
on `<class>`, for every state and extra token list. -/
theorem extra_args_ignored (st : ConsoleState) (c i : String)
    (extra : List String) :
    do_show st (c :: i :: extra) = do_show st [c, i] ∧
    do_destroy st (c :: i :: extra) = do_destroy st [c, i] ∧
    do_create st (c :: extra) = do_create st [c] := by
  have hlen : ¬(extra.length + 1 + 1 < 2) := by omega
  have hv2 : validate_classname (c :: i :: extra) true
      = validate_classname [c, i] true := by
    simp [validate_classname, hlen]
  have hv1 : validate_classname (c :: extra) false
      = validate_classname [c] false := by
    simp [validate_classname]
  refine ⟨?_, ?_, ?_⟩
  · unfold do_show
    rw [hv2]
    cases validate_classname [c, i] true with
    | some msg => rfl
    | none => simp
  · unfold do_destroy
    rw [hv2]
    cases validate_classname [c, i] true with
    | some msg => rfl
    | none => simp
  · unfold do_create
    rw [hv1]
    cases validate_classname [c] false with
    | some msg => rfl
    | none => simp
